import Mathlib

/-!
Verification development for the authentication and session-caching core of the
goit-pythonweb-hw-012 contacts API.

The Python source is shallowly embedded: JSON Web Tokens are modelled as the
signed payload together with the key and algorithm identifier used to sign
them, datetimes are integer epoch seconds, the SQLAlchemy user table is a list
of rows, and the Redis cache is a list of keyed entries carrying an absolute
expiry instant.  Route handlers and the auth-service functions become pure
functions from their inputs (configuration, request data, database, cache,
current time) to an `Except`-classified outcome together with any updated
state.
-/

set_option autoImplicit false

deriving instance DecidableEq for Except

namespace GoitHw12

/-- A JWT claim value as produced by `python-jose`: a string, a datetime
(epoch seconds), or JSON null. -/
inductive ClaimValue where
  | str (s : String)
  | time (t : Int)
  | null
deriving DecidableEq, Repr

/-- A JWT payload: a Python dict from claim names to claim values, in
insertion order. -/
abbrev Payload := List (String × ClaimValue)

/-- Python dict lookup `p[k]`, `none` when the key is absent. -/
def Payload.lookup (p : Payload) (k : String) : Option ClaimValue :=
  match p with
  | [] => none
  | (k', v) :: rest => if k' = k then some v else Payload.lookup rest k

/-- Python `p.update({k: v})`: replace the binding in place when the key is
present, append it otherwise. -/
def Payload.set (p : Payload) (k : String) (v : ClaimValue) : Payload :=
  match p with
  | [] => [(k, v)]
  | (k', v') :: rest =>
    if k' = k then (k, v) :: rest else (k', v') :: Payload.set rest k v

/-- An encoded JWT, modelled as the payload plus the key and algorithm that
signed it.  A forged or tampered token is any token whose key or algorithm
differs from the verifier's configuration. -/
structure Token where
  payload : Payload
  key : String
  alg : String
deriving DecidableEq, Repr

/-- Errors raised by `jose.jwt.decode`; all are subclasses of `JWTError`. -/
inductive JWTError where
  | invalidSignature
  | expiredSignature
  | claimsError
deriving DecidableEq, Repr

/-- Process-wide configuration read from the environment in
`src/services/auth.py`: `SECRET_KEY` and `ALGORITHM`. -/
structure Config where
  secretKey : String
  algorithm : String
deriving DecidableEq, Repr

/-- Mirrors `jose.jwt.encode(payload, key, algorithm)`. -/
def jwtEncode (payload : Payload) (key : String) (alg : String) : Token :=
  ⟨payload, key, alg⟩

/-- Mirrors `jose.jwt.decode(token, key, algorithms=[alg])` at time `now`:
signature and algorithm are checked first, then the `exp` claim (when present)
is compared against the current time; a non-numeric `exp` is a claims error. -/
def jwtDecode (tok : Token) (key : String) (alg : String) (now : Int) :
    Except JWTError Payload :=
  if tok.key ≠ key ∨ tok.alg ≠ alg then .error .invalidSignature
  else
    match tok.payload.lookup "exp" with
    | none => .ok tok.payload
    | some (.time e) => if e < now then .error .expiredSignature else .ok tok.payload
    | some _ => .error .claimsError

/-- Mirrors `create_access_token` in `src/services/auth.py`: `expires_delta`
is a number of seconds; Python treats both `None` and `0` as falsy, so those
give the 15-minute default. -/
def create_access_token (cfg : Config) (data : Payload)
    (expires_delta : Option Int) (now : Int) : Token :=
  let expire : Int :=
    match expires_delta with
    | some d => if d ≠ 0 then now + d else now + 15 * 60
    | none => now + 15 * 60
  jwtEncode (data.set "exp" (.time expire)) cfg.secretKey cfg.algorithm

/-- Mirrors `create_email_token` in `src/services/auth.py`: a 7-day expiry
plus an `iat` claim. -/
def create_email_token (cfg : Config) (data : Payload) (now : Int) : Token :=
  jwtEncode (((data.set "iat" (.time now)).set "exp" (.time (now + 7 * 24 * 60 * 60))))
    cfg.secretKey cfg.algorithm

/-- Retrieves the `exp` claim of a token, when it is a datetime. -/
def Token.expiry (t : Token) : Option Int :=
  match t.payload.lookup "exp" with
  | some (.time e) => some e
  | _ => none

/-- Tests whether `needle` occurs at the head of `hay`. -/
def leadsWith : List Char → List Char → Bool
  | _, [] => true
  | [], _ :: _ => false
  | h :: hs, n :: ns => h == n && leadsWith hs ns

/-- Tests whether `needle` occurs at the end of `hay`. -/
def endsSeq (hay needle : List Char) : Bool :=
  leadsWith hay.reverse needle.reverse

/-- The string `needle` occurs contiguously inside `hay`. -/
def strContains (hay needle : String) : Prop :=
  List.IsInfix needle.data hay.data

instance (hay needle : String) : Decidable (strContains hay needle) :=
  inferInstanceAs (Decidable (List.IsInfix needle.data hay.data))

/-- Character-wise stand-in for the body of a bcrypt digest.  The digest
relation is all any theorem here uses; the one-way property of real bcrypt
plays no role. -/
def encodePw (p : String) : String :=
  ⟨p.data.map (fun c => Char.ofNat (c.toNat + 1))⟩

/-- Mirrors `Hash.get_password_hash` in `src/services/auth.py`, which
delegates to passlib's bcrypt: a salted digest of the password.  The salt is
the internally generated randomness, made an explicit argument. -/
def get_password_hash (salt : Nat) (password : String) : String :=
  "$2b$" ++ toString salt ++ "$" ++ encodePw password

/-- Mirrors `Hash.verify_password` in `src/services/auth.py` on digests
produced by `get_password_hash`: the digest matches exactly the recorded
encoding of the plaintext.  What passlib does on strings that are not bcrypt
digests at all is a property of the external library and is not modelled. -/
def verify_password (plain_password hashed_password : String) : Bool :=
  leadsWith hashed_password.data "$2b$".data &&
    endsSeq hashed_password.data ("$" ++ encodePw plain_password).data

/-- A row of the `users` table.  The ORM model lives in `src/db.py`; its
fields are those used by `src/main.py` and `src/services/auth.py`:
`id`, `username`, `password` (the stored digest), `confirmed`, `role`,
`avatar_url`. -/
structure User where
  id : Nat
  username : String
  password : String
  confirmed : Bool
  role : String
  avatar_url : Option String
deriving DecidableEq, Repr

/-- The durable store: the list of user rows. -/
abbrev Db := List User

/-- Mirrors `db.query(User).filter(User.username == u).first()` (and the
equivalent `select`/`scalar_one_or_none` forms): first row matching the
username. -/
def Db.findByUsername (db : Db) (u : String) : Option User :=
  db.find? (fun x => x.username == u)

/-- Mirrors `setattr(user, "confirmed", True); db.commit()`: flips the
`confirmed` flag of the first row with the given username. -/
def Db.confirmFirst (db : Db) (username : String) : Db :=
  match db with
  | [] => []
  | u :: rest =>
    if u.username == username then { u with confirmed := true } :: rest
    else u :: Db.confirmFirst rest username

/-- The pydantic `UserModel` of `src/schemas.py`: it both types the signup
request body and, via `UserModel.from_orm`, the snapshot serialized into the
session cache.  It requires all three fields, `password` included. -/
structure UserModel where
  username : String
  password : String
  role : String
deriving DecidableEq, Repr

/-- Mirrors `UserModel.from_orm(user)`: copies the three declared fields from
the ORM row — `password` receives the stored digest. -/
def UserModel.from_orm (u : User) : UserModel :=
  ⟨u.username, u.password, u.role⟩

/-- Mirrors pydantic `UserModel.json()`: the JSON text of the three fields. -/
def UserModel.json (m : UserModel) : String :=
  "\x7b\"username\": \"" ++ m.username ++ "\", \"password\": \"" ++ m.password ++
    "\", \"role\": \"" ++ m.role ++ "\"\x7d"

/-- One Redis entry: the key (the encoded session token), the stored snapshot
(standing for the `user_out.json()` text — `protected_route` reads it back
with `json.loads`), and the absolute instant at which the key expires. -/
structure CacheEntry where
  key : Token
  value : UserModel
  expiresAt : Int
deriving DecidableEq, Repr

/-- The Redis store reachable from `r = redis.Redis(...)` in `src/main.py`. -/
abbrev Cache := List CacheEntry

/-- Mirrors `r.setex(k, ttl, v)` at time `now`: the key now expires at
`now + ttl`; any previous entry for the key is overwritten. -/
def Cache.setex (c : Cache) (k : Token) (ttl : Int) (v : UserModel) (now : Int) :
    Cache :=
  ⟨k, v, now + ttl⟩ :: c.filter (fun e => e.key ≠ k)

/-- Mirrors `r.get(k)` at time `now`: the value while the key has not yet
expired, `nil` afterwards or when absent. -/
def Cache.get (c : Cache) (k : Token) (now : Int) : Option UserModel :=
  match c.find? (fun e => e.key == k) with
  | some e => if now < e.expiresAt then some e.value else none
  | none => none

/-- An exception escaping a route handler: either a FastAPI `HTTPException`
with its status code and `detail` message (response headers are not
modelled), or a raw Python `KeyError` that no handler catches. -/
inductive PyError where
  | httpException (status : Nat) (detail : String)
  | keyError (key : String)
deriving DecidableEq, Repr

/-- The `credentials_exception` built in `get_current_user`: 401 with one
fixed detail message. -/
def credentials_exception : PyError :=
  .httpException 401 "Could not validate credentials"

/-- Mirrors `get_current_user` in `src/services/auth.py`, additionally
reporting the number of durable-store queries it ran.  `jwt.decode` failures
(all `JWTError` subclasses) become the credentials exception; `payload["sub"]`
on a payload without that key raises `KeyError`, which the `except JWTError`
clause does not catch; a null subject hits the explicit `is None` check; a
non-string subject matches no `username` column; otherwise the user row is
looked up by the subject. -/
def get_current_userC (cfg : Config) (token : Token) (db : Db) (now : Int) :
    Except PyError User × Nat :=
  match jwtDecode token cfg.secretKey cfg.algorithm now with
  | .error _ => (.error credentials_exception, 0)
  | .ok payload =>
    match payload.lookup "sub" with
    | none => (.error (.keyError "sub"), 0)
    | some .null => (.error credentials_exception, 0)
    | some (.time _) => (.error credentials_exception, 1)
    | some (.str username) =>
      match db.findByUsername username with
      | none => (.error credentials_exception, 1)
      | some u => (.ok u, 1)

/-- The outcome of `get_current_user`, without the query count. -/
def get_current_user (cfg : Config) (token : Token) (db : Db) (now : Int) :
    Except PyError User :=
  (get_current_userC cfg token db now).1

/-- Mirrors `get_email_from_token` in `src/services/auth.py`: the same
`jwt.decode` as `get_current_user`, but a `JWTError` becomes a 422, and the
`sub` claim is returned directly (a missing key again raises `KeyError`). -/
def get_email_from_token (cfg : Config) (token : Token) (now : Int) :
    Except PyError ClaimValue :=
  match jwtDecode token cfg.secretKey cfg.algorithm now with
  | .error _ => .error (.httpException 422 "Invalid token")
  | .ok payload =>
    match payload.lookup "sub" with
    | none => .error (.keyError "sub")
    | some v => .ok v

/-- Mirrors `get_admin_user` in `src/services/auth.py`. -/
def get_admin_user (current_user : User) : Except PyError User :=
  if current_user.role ≠ "admin" then
    .error (.httpException 403 "Access denied: Admin role required.")
  else .ok current_user

/-- The form body of `POST /login`. -/
structure LoginForm where
  username : String
  password : String
deriving DecidableEq, Repr

/-- The success body of `POST /login`. -/
structure LoginOut where
  access_token : Token
  token_type : String
deriving DecidableEq, Repr

/-- Mirrors the `login` handler in `src/main.py`: look the user up by
username, verify the password, require a confirmed email, then issue a
session token (default lifetime), cache the `UserModel` snapshot of the user
under the token with `r.setex(access_token, 3600, user_out.json())`, and
answer with the token.  Returns the response together with the updated
cache. -/
def login (cfg : Config) (body : LoginForm) (db : Db) (cache : Cache)
    (now : Int) : Except PyError (LoginOut × Cache) :=
  match db.findByUsername body.username with
  | none => .error (.httpException 401 "Invalid username")
  | some user =>
    if ¬ verify_password body.password user.password then
      .error (.httpException 401 "Invalid password")
    else if ¬ user.confirmed then
      .error (.httpException 401 "Emai is not confirmed. Please, check your email")
    else
      let access_token := create_access_token cfg [("sub", .str user.username)] none now
      let user_out := UserModel.from_orm user
      .ok (⟨access_token, "bearer"⟩, cache.setex access_token 3600 user_out now)

/-- Modelled from the spec: the column defaults of the `User` ORM model,
whose module `src/db.py` is not among the sources here.  Per the
specification an account's `confirmed` flag starts false, and `role` is one
of at least `user` and `admin`, administratively raised; the default is the
unprivileged `user`. -/
def defaultRole : String := "user"

/-- Mirrors the `signup` handler in `src/main.py`: reject an existing
username with 409, otherwise insert `User(username=..., password=hash(...))`
— no other constructor argument is passed, so `confirmed` and `role` take the
model defaults (see `defaultRole`), and the submitted `body.role` is never
read.  `salt` is the hasher's internal randomness and `newId` the
database-assigned key; the confirmation e-mail task is fire-and-forget and
carries no state modelled here.  Returns the response value of `"new_user"`
and the updated table. -/
def signup (body : UserModel) (db : Db) (salt : Nat) (newId : Nat) :
    Except PyError (String × Db) :=
  match db.findByUsername body.username with
  | some _ => .error (.httpException 409 "Account already exists")
  | none =>
    let new_user : User :=
      ⟨newId, body.username, get_password_hash salt body.password, false, defaultRole, none⟩
    .ok (new_user.username, db ++ [new_user])

/-- Mirrors the `confirmed_email` handler in `src/main.py`: extract the
subject from the token, look the user up by it, 400 when absent, idempotent
message when already confirmed, otherwise set `confirmed` and commit.
Returns the response message and the resulting table. -/
def confirmed_email (cfg : Config) (token : Token) (db : Db) (now : Int) :
    Except PyError (String × Db) :=
  match get_email_from_token cfg token now with
  | .error e => .error e
  | .ok email =>
    match email with
    | .str e =>
      match db.findByUsername e with
      | none => .error (.httpException 400 "Verification error")
      | some user =>
        if user.confirmed then .ok ("Your email is already confirmed", db)
        else .ok ("Your email is confirmed", db.confirmFirst user.username)
    | _ => .error (.httpException 400 "Verification error")

/-- Mirrors the `protected_route` handler in `src/main.py`, instrumented with
the number of durable-store queries: the `get_current_user` dependency runs
first (and already queries the durable store), then the cache is consulted;
on a hit the reply is built from the cached snapshot, on a miss the user is
looked up in the durable store a second time. -/
def protected_route (cfg : Config) (token : Token) (db : Db) (cache : Cache)
    (now : Int) : Except PyError String × Nat :=
  match get_current_userC cfg token db now with
  | (.error e, n) => (.error e, n)
  | (.ok current_user, n) =>
    match cache.get token now with
    | some cached => (.ok ("Hello, " ++ cached.username ++ "!"), n)
    | none =>
      match db.findByUsername current_user.username with
      | none => (.error (.httpException 401 "Invalid token"), n + 1)
      | some user => (.ok ("Hello, " ++ user.username ++ "!"), n + 1)

/-! Concrete fixtures used by witnesses and counterexamples. -/

/-- A concrete configuration. -/
def cfg0 : Config := ⟨"secret", "HS256"⟩

/-- A confirmed account, with the digest of password `12345678` under salt 12. -/
def user0 : User :=
  ⟨1, "deadpool", get_password_hash 12 "12345678", true, "user", none⟩

/-- A one-row durable store. -/
def db0 : Db := [user0]

/-- The login form with `user0`'s correct credentials. -/
def form0 : LoginForm := ⟨"deadpool", "12345678"⟩

/-- The session token `login` issues for `user0` at time 0. -/
def tok0 : Token := create_access_token cfg0 [("sub", .str "deadpool")] none 0

/-- The cache as written by a successful login of `user0` at time 0. -/
def cache0 : Cache := Cache.setex [] tok0 3600 (UserModel.from_orm user0) 0

/-- The result of `user0`'s login at time 0 against an empty cache. -/
def login0 : Except PyError (LoginOut × Cache) := login cfg0 form0 db0 [] 0

/-- An account like `user0` but with an unconfirmed email. -/
def user1 : User :=
  ⟨2, "wade", get_password_hash 7 "12345678", false, "user", none⟩

/-- A one-row durable store holding only the unconfirmed account. -/
def db1 : Db := [user1]

/-- The login form with `user1`'s correct credentials. -/
def form1 : LoginForm := ⟨"wade", "12345678"⟩

/-- The email-confirmation token for `user0`'s address at time 0. -/
def tokE0 : Token := create_email_token cfg0 [("sub", .str "deadpool")] 0

/-! Helper lemmas about the embedded operations. -/

theorem Payload.lookup_set_self (p : Payload) (k : String) (v : ClaimValue) :
    (p.set k v).lookup k = some v := by
  induction p with
  | nil => simp [Payload.set, Payload.lookup]
  | cons hd tl ih =>
    obtain ⟨k', v'⟩ := hd
    by_cases h : k' = k
    · simp [Payload.set, h, Payload.lookup]
    · simp [Payload.set, h, Payload.lookup, ih]

theorem Payload.lookup_set_ne (p : Payload) (k k' : String) (v : ClaimValue)
    (h : k' ≠ k) : (p.set k v).lookup k' = p.lookup k' := by
  induction p with
  | nil => simp [Payload.set, Payload.lookup, Ne.symm h]
  | cons hd tl ih =>
    obtain ⟨k₀, v₀⟩ := hd
    by_cases hk : k₀ = k
    · subst hk
      simp [Payload.set, Payload.lookup, Ne.symm h]
    · simp [Payload.set, hk, Payload.lookup, ih]

theorem Db.findByUsername_self {db : Db} {name : String} {u : User}
    (h : db.findByUsername name = some u) :
    db.findByUsername u.username = some u := by
  have h' : List.find? (fun x => x.username == name) db = some u := h
  have hb := List.find?_some h'
  have he : u.username = name := by simpa using hb
  rw [Db.findByUsername, he]
  exact h

/-- Decoding a session token issued with an explicit nonzero lifetime. -/
theorem jwtDecode_access_token (cfg : Config) (data : Payload) (L : Int)
    (hL : L ≠ 0) (now t : Int) :
    jwtDecode (create_access_token cfg data (some L) now)
        cfg.secretKey cfg.algorithm t =
      if now + L < t then .error .expiredSignature
      else .ok (data.set "exp" (.time (now + L))) := by
  simp [create_access_token, jwtEncode, jwtDecode, Payload.lookup_set_self, hL]

/-- Decoding a session token issued with the 15-minute default lifetime. -/
theorem jwtDecode_access_token_default (cfg : Config) (data : Payload)
    (now t : Int) :
    jwtDecode (create_access_token cfg data none now)
        cfg.secretKey cfg.algorithm t =
      if now + 900 < t then .error .expiredSignature
      else .ok (data.set "exp" (.time (now + 900))) := by
  have h : (15 : Int) * 60 = 900 := by norm_num
  simp [create_access_token, jwtEncode, jwtDecode, Payload.lookup_set_self, h]

/-- Decoding a 7-day email-confirmation token. -/
theorem jwtDecode_email_token (cfg : Config) (data : Payload) (now t : Int) :
    jwtDecode (create_email_token cfg data now) cfg.secretKey cfg.algorithm t =
      if now + 604800 < t then .error .expiredSignature
      else .ok ((data.set "iat" (.time now)).set "exp" (.time (now + 604800))) := by
  have h : (7 : Int) * 24 * 60 * 60 = 604800 := by norm_num
  simp [create_email_token, jwtEncode, jwtDecode, Payload.lookup_set_self, h]

/-- The serialized snapshot contains its `password` field verbatim. -/
theorem json_contains_password (m : UserModel) : strContains m.json m.password := by
  refine ⟨("\x7b\"username\": \"" ++ m.username ++ "\", \"password\": \"").data,
    ("\", \"role\": \"" ++ m.role ++ "\"\x7d").data, ?_⟩
  simp [UserModel.json, strContains]

/-- Looking up a just-written cache key. -/
theorem Cache.get_setex_self (c : Cache) (k : Token) (ttl : Int) (v : UserModel)
    (now t : Int) :
    (c.setex k ttl v now).get k t = if t < now + ttl then some v else none := by
  simp [Cache.setex, Cache.get]

/-- A successful login issues the default-lifetime session token for the
account's username and write-throughs the `UserModel` snapshot with a
3600-second TTL. -/
theorem login_success (cfg : Config) (body : LoginForm) (db : Db) (cache : Cache)
    (now : Int) (u : User)
    (hu : db.findByUsername body.username = some u)
    (hpw : verify_password body.password u.password = true)
    (hc : u.confirmed = true) :
    login cfg body db cache now =
      .ok (⟨create_access_token cfg [("sub", .str u.username)] none now, "bearer"⟩,
        cache.setex (create_access_token cfg [("sub", .str u.username)] none now)
          3600 (UserModel.from_orm u) now) := by
  simp [login, hu, hpw, hc]

/-- Resolving a fresh default-lifetime session token through
`protected_route` right after its cache entry was written: the cache hit
supplies the reply, and exactly one durable-store query runs (the one
`get_current_user` always performs). -/
theorem protected_route_after_login (cfg : Config) (db : Db) (cache : Cache)
    (now : Int) (u : User)
    (hu : db.findByUsername u.username = some u) :
    protected_route cfg (create_access_token cfg [("sub", .str u.username)] none now)
      db
      (cache.setex (create_access_token cfg [("sub", .str u.username)] none now)
        3600 (UserModel.from_orm u) now) now =
      (.ok ("Hello, " ++ u.username ++ "!"), 1) := by
  have hsub : (Payload.set [("sub", ClaimValue.str u.username)] "exp"
      (ClaimValue.time (now + 900))).lookup "sub" = some (.str u.username) := by
    rw [Payload.lookup_set_ne _ _ _ _ (by decide : "sub" ≠ "exp")]
    simp [Payload.lookup]
  unfold protected_route get_current_userC
  rw [jwtDecode_access_token_default, if_neg (by omega : ¬ (now + 900 < now))]
  rw [Cache.get_setex_self, if_pos (by omega : now < now + 3600)]
  simp [hsub, hu, UserModel.from_orm]

/-! Claim theorems. -/

/-- C1, counterexample: after `user0`'s successful login at time 0 the cache
holds the issued token (a hit), yet resolving the bearer identity through
`protected_route` still performs one durable-store query — `get_current_user`
always queries the database — refuting "returns the matching identity from
the session cache without performing a durable-store (database) lookup". -/
theorem C1_db_lookup_despite_cache_hit :
    login0 = .ok (⟨tok0, "bearer"⟩, cache0) ∧
    Cache.get cache0 tok0 0 = some (UserModel.from_orm user0) ∧
    protected_route cfg0 tok0 db0 cache0 0 = (.ok "Hello, deadpool!", 1) ∧
    (1 : Nat) ≠ 0 := by decide

/-- C1, amended: for every session token obtained from a successful login,
immediately resolving the bearer identity performs exactly one durable-store
lookup — the one `get_current_user` always runs before the cache is consulted
— and the cache hit then supplies the reply, skipping only the second,
in-handler durable lookup (which runs only on a cache miss). -/
theorem C1_one_durable_lookup_even_on_hit (cfg : Config) (body : LoginForm)
    (db : Db) (cache : Cache) (now : Int) (u : User)
    (hu : db.findByUsername body.username = some u)
    (hpw : verify_password body.password u.password = true)
    (hc : u.confirmed = true) :
    login cfg body db cache now =
      .ok (⟨create_access_token cfg [("sub", .str u.username)] none now, "bearer"⟩,
        cache.setex (create_access_token cfg [("sub", .str u.username)] none now)
          3600 (UserModel.from_orm u) now) ∧
    protected_route cfg (create_access_token cfg [("sub", .str u.username)] none now)
      db
      (cache.setex (create_access_token cfg [("sub", .str u.username)] none now)
        3600 (UserModel.from_orm u) now) now =
      (.ok ("Hello, " ++ u.username ++ "!"), 1) :=
  ⟨login_success cfg body db cache now u hu hpw hc,
   protected_route_after_login cfg db cache now u (Db.findByUsername_self hu)⟩

/-- C1, witness: the amended theorem applied to `user0`'s concrete login. -/
theorem C1_one_durable_lookup_even_on_hit_witness :
    login cfg0 form0 db0 [] 0 = .ok (⟨tok0, "bearer"⟩, cache0) ∧
    protected_route cfg0 tok0 db0 cache0 0 = (.ok "Hello, deadpool!", 1) :=
  C1_one_durable_lookup_even_on_hit cfg0 form0 db0 [] 0 user0
    (by decide) (by decide) (by decide)

/-- C2, counterexample: `user0`'s login at time 0 writes the cache entry with
the fixed 3600-second TTL while the issued token expires at 900; at time 2000
the cache still serves the snapshot although the token is already expired, so
the entry outlives the token, refuting the TTL-for-TTL correspondence. -/
theorem C2_cache_entry_outlives_token :
    login0 = .ok (⟨tok0, "bearer"⟩, cache0) ∧
    cache0 = [⟨tok0, UserModel.from_orm user0, 3600⟩] ∧
    tok0.expiry = some 900 ∧
    (3600 : Int) ≠ 900 ∧
    Cache.get cache0 tok0 2000 = some (UserModel.from_orm user0) ∧
    jwtDecode tok0 cfg0.secretKey cfg0.algorithm 2000 = .error .expiredSignature := by
  decide

/-- C2, amended: for every successful login the session-cache entry is
written with the fixed TTL of 3600 seconds while the issued token's lifetime
is 900 seconds (the 15-minute default), so the entry outlives the token's
expiry by 2700 seconds. -/
theorem C2_ttl_is_3600_but_lifetime_900 (cfg : Config) (body : LoginForm)
    (db : Db) (cache : Cache) (now : Int) (u : User)
    (hu : db.findByUsername body.username = some u)
    (hpw : verify_password body.password u.password = true)
    (hc : u.confirmed = true) :
    login cfg body db cache now =
      .ok (⟨create_access_token cfg [("sub", .str u.username)] none now, "bearer"⟩,
        ⟨create_access_token cfg [("sub", .str u.username)] none now,
          UserModel.from_orm u, now + 3600⟩ ::
          cache.filter
            (fun e => e.key ≠ create_access_token cfg [("sub", .str u.username)] none now)) ∧
    (create_access_token cfg [("sub", .str u.username)] none now).expiry =
      some (now + 900) ∧
    now + 900 < now + 3600 := by
  refine ⟨?_, ?_, by omega⟩
  · simpa [Cache.setex] using login_success cfg body db cache now u hu hpw hc
  · have h : (15 : Int) * 60 = 900 := by norm_num
    simp [create_access_token, jwtEncode, Token.expiry, Payload.lookup_set_self, h]

/-- C2, witness: the amended theorem applied to `user0`'s concrete login. -/
theorem C2_ttl_is_3600_but_lifetime_900_witness :
    login cfg0 form0 db0 [] 0 =
      .ok (⟨tok0, "bearer"⟩, [⟨tok0, UserModel.from_orm user0, 3600⟩]) ∧
    tok0.expiry = some 900 ∧
    (900 : Int) < 3600 := by
  have h := C2_ttl_is_3600_but_lifetime_900 cfg0 form0 db0 [] 0 user0
    (by decide) (by decide) (by decide)
  exact ⟨h.1, h.2.1, by norm_num⟩

/-- C3: a correctly signed, unexpired token whose payload lacks the `sub`
claim makes `get_current_user` raise an uncaught `KeyError` — `payload["sub"]`
is evaluated before any `None` check and `except JWTError` does not catch
`KeyError` — instead of the single 401 `credentials_exception` that every
other failure mode produces. -/
theorem C3_missing_subject_raises_KeyError :
    get_current_user cfg0 (jwtEncode [("exp", .time 900)] "secret" "HS256") db0 0 =
      .error (.keyError "sub") ∧
    PyError.keyError "sub" ≠ credentials_exception := by decide

/-- C4, counterexample: the value `user0`'s login stores in the session cache
is the `UserModel` snapshot whose `password` field is the account's stored
digest, and its JSON serialization contains that digest verbatim, refuting
"never contains the password hash". -/
theorem C4_cached_snapshot_holds_digest :
    login0 = .ok (⟨tok0, "bearer"⟩, cache0) ∧
    Cache.get cache0 tok0 0 = some (UserModel.from_orm user0) ∧
    (UserModel.from_orm user0).password = user0.password ∧
    strContains (UserModel.from_orm user0).json user0.password := by decide

/-- C4, amended: for every successful login the value stored in the session
cache is the serialization of the full pydantic `UserModel` — username,
password, role — copied from the account, and its `password` field is the
account's stored digest, which appears verbatim in the serialized JSON. -/
theorem C4_cache_value_carries_digest (cfg : Config) (body : LoginForm)
    (db : Db) (cache : Cache) (now : Int) (u : User)
    (hu : db.findByUsername body.username = some u)
    (hpw : verify_password body.password u.password = true)
    (hc : u.confirmed = true) :
    login cfg body db cache now =
      .ok (⟨create_access_token cfg [("sub", .str u.username)] none now, "bearer"⟩,
        cache.setex (create_access_token cfg [("sub", .str u.username)] none now)
          3600 (UserModel.from_orm u) now) ∧
    (UserModel.from_orm u).password = u.password ∧
    strContains (UserModel.from_orm u).json u.password :=
  ⟨login_success cfg body db cache now u hu hpw hc, rfl,
   json_contains_password (UserModel.from_orm u)⟩

/-- C4, witness: the amended theorem applied to `user0`'s concrete login. -/
theorem C4_cache_value_carries_digest_witness :
    login cfg0 form0 db0 [] 0 = .ok (⟨tok0, "bearer"⟩, cache0) ∧
    (UserModel.from_orm user0).password = user0.password ∧
    strContains (UserModel.from_orm user0).json user0.password :=
  C4_cache_value_carries_digest cfg0 form0 db0 [] 0 user0
    (by decide) (by decide) (by decide)

/-- C5: session and confirmation tokens share one verification mechanism with
no purpose check — an unexpired session token for subject `s` is accepted by
the confirmation endpoint's verification, which returns `s`, and conversely a
confirmation token for `s` passes session-token verification and resolves to
the account whose username is `s` whenever that subject lookup succeeds. -/
theorem C5_shared_verification (cfg : Config) (s : String) (now t : Int)
    (db : Db) (u : User)
    (hsession : ¬ now + 900 < t)
    (hconfirm : ¬ now + 604800 < t)
    (hdb : db.findByUsername s = some u) :
    get_email_from_token cfg (create_access_token cfg [("sub", .str s)] none now) t =
      .ok (.str s) ∧
    get_current_user cfg (create_email_token cfg [("sub", .str s)] now) db t = .ok u ∧
    u.username = s := by
  have hsub1 : (Payload.set [("sub", ClaimValue.str s)] "exp"
      (ClaimValue.time (now + 900))).lookup "sub" = some (.str s) := by
    rw [Payload.lookup_set_ne _ _ _ _ (by decide : "sub" ≠ "exp")]
    simp [Payload.lookup]
  have hsub2 : ((Payload.set [("sub", ClaimValue.str s)] "iat"
      (ClaimValue.time now)).set "exp" (ClaimValue.time (now + 604800))).lookup "sub" =
      some (.str s) := by
    rw [Payload.lookup_set_ne _ _ _ _ (by decide : "sub" ≠ "exp"),
        Payload.lookup_set_ne _ _ _ _ (by decide : "sub" ≠ "iat")]
    simp [Payload.lookup]
  have husername : u.username = s := by
    have h' : List.find? (fun x => x.username == s) db = some u := hdb
    simpa using List.find?_some h'
  refine ⟨?_, ?_, husername⟩
  · unfold get_email_from_token
    rw [jwtDecode_access_token_default, if_neg hsession]
    simp [hsub1]
  · unfold get_current_user get_current_userC
    rw [jwtDecode_email_token, if_neg hconfirm]
    simp [hsub2, hdb]

/-- C5, witness: `user0`'s session and confirmation tokens at time 0 are
interchangeable for the two verification paths. -/
theorem C5_shared_verification_witness :
    get_email_from_token cfg0
      (create_access_token cfg0 [("sub", .str "deadpool")] none 0) 0 =
      .ok (.str "deadpool") ∧
    get_current_user cfg0 tokE0 db0 0 = .ok user0 ∧
    user0.username = "deadpool" :=
  C5_shared_verification cfg0 "deadpool" 0 0 db0 user0
    (by decide) (by decide) (by decide)

/-- C7: the login checks run in order with distinct outcomes — unknown
username, then wrong password, then unconfirmed email (even with a correct
password), then success with the bearer token — and the three failure details
are pairwise distinct. -/
theorem C7_login_failure_order (cfg : Config) (body : LoginForm) (db : Db)
    (cache : Cache) (now : Int) :
    (db.findByUsername body.username = none →
      login cfg body db cache now = .error (.httpException 401 "Invalid username")) ∧
    (∀ u, db.findByUsername body.username = some u →
      verify_password body.password u.password = false →
      login cfg body db cache now = .error (.httpException 401 "Invalid password")) ∧
    (∀ u, db.findByUsername body.username = some u →
      verify_password body.password u.password = true → u.confirmed = false →
      login cfg body db cache now =
        .error (.httpException 401 "Emai is not confirmed. Please, check your email")) ∧
    (∀ u, db.findByUsername body.username = some u →
      verify_password body.password u.password = true → u.confirmed = true →
      login cfg body db cache now =
        .ok (⟨create_access_token cfg [("sub", .str u.username)] none now, "bearer"⟩,
          cache.setex (create_access_token cfg [("sub", .str u.username)] none now)
            3600 (UserModel.from_orm u) now)) ∧
    (PyError.httpException 401 "Invalid username" ≠
        .httpException 401 "Invalid password" ∧
      PyError.httpException 401 "Invalid username" ≠
        .httpException 401 "Emai is not confirmed. Please, check your email" ∧
      PyError.httpException 401 "Invalid password" ≠
        .httpException 401 "Emai is not confirmed. Please, check your email") :=
  ⟨fun h => by simp [login, h],
   fun u hu hpw => by simp [login, hu, hpw],
   fun u hu hpw hc => by simp [login, hu, hpw, hc],
   fun u hu hpw hc => login_success cfg body db cache now u hu hpw hc,
   by decide, by decide, by decide⟩

/-- C7, witness: the four cases at concrete stores — unknown username, wrong
password for `user0`, correct password but unconfirmed `user1`, and `user0`'s
successful login. -/
theorem C7_login_failure_order_witness :
    login cfg0 ⟨"username", "123455678"⟩ db0 [] 0 =
      .error (.httpException 401 "Invalid username") ∧
    login cfg0 ⟨"deadpool", "password"⟩ db0 [] 0 =
      .error (.httpException 401 "Invalid password") ∧
    login cfg0 form1 db1 [] 0 =
      .error (.httpException 401 "Emai is not confirmed. Please, check your email") ∧
    login cfg0 form0 db0 [] 0 = .ok (⟨tok0, "bearer"⟩, cache0) :=
  ⟨(C7_login_failure_order cfg0 ⟨"username", "123455678"⟩ db0 [] 0).1 (by decide),
   (C7_login_failure_order cfg0 ⟨"deadpool", "password"⟩ db0 [] 0).2.1 user0
     (by decide) (by decide),
   (C7_login_failure_order cfg0 form1 db1 [] 0).2.2.1 user1
     (by decide) (by decide) (by decide),
   (C7_login_failure_order cfg0 form0 db0 [] 0).2.2.2.1 user0
     (by decide) (by decide) (by decide)⟩

/-- C8: a token issued from claim set `C` with lifetime `L > 0` verifies to a
payload agreeing with `C` on every claim other than the codec-managed `exp`
when checked at or before `L` elapsed, and fails with the `Expired`-class
error when checked after `L` has elapsed. -/
theorem C8_issue_then_verify (cfg : Config) (C : Payload) (L now t : Int)
    (hL : 0 < L) :
    (¬ now + L < t →
      jwtDecode (create_access_token cfg C (some L) now)
          cfg.secretKey cfg.algorithm t =
        .ok (C.set "exp" (.time (now + L))) ∧
      ∀ k, k ≠ "exp" → (C.set "exp" (.time (now + L))).lookup k = C.lookup k) ∧
    (now + L < t →
      jwtDecode (create_access_token cfg C (some L) now)
          cfg.secretKey cfg.algorithm t = .error .expiredSignature) := by
  have hL' : L ≠ 0 := by omega
  constructor
  · intro h
    refine ⟨?_, fun k hk => Payload.lookup_set_ne C "exp" k _ hk⟩
    rw [jwtDecode_access_token cfg C L hL' now t, if_neg h]
  · intro h
    rw [jwtDecode_access_token cfg C L hL' now t, if_pos h]

/-- C8, witness: a 60-second token carrying a `sub` claim verifies at 60 and
keeps the claim, and is expired at 61. -/
theorem C8_issue_then_verify_witness :
    jwtDecode (create_access_token cfg0 [("sub", .str "agent")] (some 60) 0)
      cfg0.secretKey cfg0.algorithm 60 =
      .ok (Payload.set [("sub", .str "agent")] "exp" (.time 60)) ∧
    (Payload.set [("sub", .str "agent")] "exp" (.time 60)).lookup "sub" =
      Payload.lookup [("sub", .str "agent")] "sub" ∧
    jwtDecode (create_access_token cfg0 [("sub", .str "agent")] (some 60) 0)
      cfg0.secretKey cfg0.algorithm 61 = .error .expiredSignature :=
  ⟨((C8_issue_then_verify cfg0 [("sub", .str "agent")] 60 0 60 (by decide)).1
      (by decide)).1,
   ((C8_issue_then_verify cfg0 [("sub", .str "agent")] 60 0 60 (by decide)).1
      (by decide)).2 "sub" (by decide),
   (C8_issue_then_verify cfg0 [("sub", .str "agent")] 60 0 61 (by decide)).2
     (by decide)⟩

/-- C9: confirming an already-confirmed account with a valid token for it
returns the idempotent success message and leaves the durable store
unchanged — no mutation, no persist. -/
theorem C9_confirm_idempotent (cfg : Config) (token : Token) (db : Db)
    (now : Int) (u : User)
    (htok : get_email_from_token cfg token now = .ok (.str u.username))
    (hdb : db.findByUsername u.username = some u)
    (hc : u.confirmed = true) :
    confirmed_email cfg token db now =
      .ok ("Your email is already confirmed", db) := by
  simp [confirmed_email, htok, hdb, hc]

/-- C9, witness: re-confirming the already-confirmed `user0` with its valid
confirmation token leaves `db0` unchanged. -/
theorem C9_confirm_idempotent_witness :
    confirmed_email cfg0 tokE0 db0 0 =
      .ok ("Your email is already confirmed", db0) :=
  C9_confirm_idempotent cfg0 tokE0 db0 0 user0 (by decide) (by decide) (by decide)

/-- C10: signup never reads the submitted `role` — two signup bodies that
agree on username and password produce identical outcomes whatever their
`role` fields — and a fresh account is created with the model defaults:
`confirmed = false` and the default role (the request schema `UserModel`
still requires a `role` field to be present). -/
theorem C10_signup_ignores_role (b1 b2 : UserModel) (db : Db) (salt newId : Nat)
    (hun : b1.username = b2.username) (hpw : b1.password = b2.password) :
    signup b1 db salt newId = signup b2 db salt newId ∧
    (db.findByUsername b1.username = none →
      signup b1 db salt newId =
        .ok (b1.username,
          db ++ [⟨newId, b1.username, get_password_hash salt b1.password,
            false, defaultRole, none⟩])) := by
  constructor
  · simp [signup, hun, hpw]
  · intro h
    simp [signup, h]

/-- C10, witness: two signup bodies differing only in `role` ("admin" vs
"user") coincide, and the created account takes the defaults. -/
theorem C10_signup_ignores_role_witness :
    signup ⟨"agent007@email.com", "12345678", "admin"⟩ [] 5 1 =
      signup ⟨"agent007@email.com", "12345678", "user"⟩ [] 5 1 ∧
    signup ⟨"agent007@email.com", "12345678", "admin"⟩ [] 5 1 =
      .ok ("agent007@email.com",
        [⟨1, "agent007@email.com", get_password_hash 5 "12345678",
          false, defaultRole, none⟩]) :=
  ⟨(C10_signup_ignores_role ⟨"agent007@email.com", "12345678", "admin"⟩
      ⟨"agent007@email.com", "12345678", "user"⟩ [] 5 1 rfl rfl).1,
   (C10_signup_ignores_role ⟨"agent007@email.com", "12345678", "admin"⟩
      ⟨"agent007@email.com", "12345678", "user"⟩ [] 5 1 rfl rfl).2 (by decide)⟩

end GoitHw12
